import Mathlib

/-!
Shallow embedding of the yata streaming-indicator framework and its two
reference indicators, `Envelopes` (src/src/indicators/envelopes.rs) and
`KlingerVolumeOscillator` (src/src/indicators/klinger_volume_oscillator.rs).

The repository source provides only the two indicator files; the shared core
(`OHLCV`, `Source`, `Action`, `Error`, `IndicatorResult`, the moving-average
abstraction `MA`, the crossing detector `Cross`, and the helper `sign`) is
modelled from the specification, as marked on each definition.  Numeric
values (`ValueType`, a float in the source) are embedded as exact rationals.
-/

deriving instance DecidableEq for Except

namespace Yata

/-- Modelled from the spec (section 7): the error kinds of the framework.
`WrongConfig` is raised by `init` when validation fails; `ParameterParse`
carries the offending field name and raw value; `WrongMethodParameters`
stands for a moving-average construction failure (period out of domain). -/
inductive Error where
  | WrongConfig
  | ParameterParse (name : String) (value : String)
  | WrongMethodParameters
deriving DecidableEq, Repr

/-- Modelled from the spec (glossary): one market candle carrying
open/high/low/close/volume.  `op` is the opening value (`open` is a Lean
keyword). -/
structure Candle where
  op : ℚ
  high : ℚ
  low : ℚ
  close : ℚ
  volume : ℚ
deriving DecidableEq, Repr

/-- Modelled from the spec (glossary): typical price, the average of high,
low and close. -/
def Candle.tp (c : Candle) : ℚ :=
  (c.high + c.low + c.close) / 3

/-- Modelled from the spec (section 6): the source-selector enumeration
naming which candle field feeds a computation. -/
inductive Source where
  | Open
  | High
  | Low
  | Close
  | Volume
  | TP
deriving DecidableEq, Repr

/-- Modelled from the spec (section 6): read the selected source field of a
candle. -/
def Candle.source (c : Candle) : Source → ℚ
  | .Open => c.op
  | .High => c.high
  | .Low => c.low
  | .Close => c.close
  | .Volume => c.volume
  | .TP => c.tp

/-- Modelled from the spec (section 6): a trade signal is a bounded
directional strength; the two reference indicators only emit full buy (+1),
full sell (-1) or no signal (0), so those three points are embedded. -/
inductive Action where
  | none
  | buy
  | sell
deriving DecidableEq, Repr

/-- Conversion of a signed integer into a signal, as used by the envelope
indicator (`Action::from(signal)` on an `i8`): positive means full buy,
negative full sell, zero no signal.  Modelled from the spec (section 6
sign convention). -/
def Action.fromInt (n : ℤ) : Action :=
  if 0 < n then .buy else if n < 0 then .sell else .none

/-- Modelled from the spec (section 3): a per-step result, an ordered
sequence of numeric output values and an ordered sequence of signals. -/
structure IndicatorResult where
  values : List ℚ
  signals : List Action
deriving DecidableEq, Repr

/-- Modelled from the spec (section 4.2): the crossing-detector state, two
remembered prior values reduced to their ordering, or uninitialized before
the first step. -/
inductive CrossState where
  | uninit
  | below
  | above
  | equal
deriving DecidableEq, Repr

/-- Ordering of a freshly observed pair `(a, b)` as a crossing-detector
state.  Modelled from the spec (section 4.2). -/
def CrossState.observe (a b : ℚ) : CrossState :=
  if a < b then .below else if b < a then .above else .equal

/-- Modelled from the spec (section 4.2): one step of the crossing detector
on a pair `(a, b)`: record the new ordering; emit a full buy signal on a
transition from below/equal to above, a full sell signal on a transition
from above/equal to below, and no signal otherwise (in particular from the
uninitialized state). -/
def CrossState.next (s : CrossState) (a b : ℚ) : CrossState × Action :=
  let s2 := CrossState.observe a b
  let act : Action :=
    match s, s2 with
    | .below, .above => .buy
    | .equal, .above => .buy
    | .above, .below => .sell
    | .equal, .below => .sell
    | _, _ => .none
  (s2, act)

/-- Modelled from the spec (sections 4.1 and 9): the closed tagged-variant
set of moving-average constructors, each carrying its period.  Two
representative families suffice for the claims: a simple (windowed) average
and an exponential one. -/
inductive MA where
  | SMA (period : ℕ)
  | EMA (period : ℕ)
deriving DecidableEq, Repr

/-- The period of a moving-average constructor (`ma_period` in the source
interface).  Modelled from the spec (section 4.1). -/
def MA.maPeriod : MA → ℕ
  | .SMA p => p
  | .EMA p => p

/-- The similarity predicate of the moving-average abstraction
(`is_similar_to`): same algorithm family, period ignored.  Modelled from
the spec (section 4.1). -/
def MA.isSimilarTo : MA → MA → Bool
  | .SMA _, .SMA _ => true
  | .EMA _, .EMA _ => true
  | _, _ => false

/-- Modelled from the spec (section 4.1): the running state of a moving
average.  A simple average keeps its trailing window (oldest first); an
exponential average keeps its previous output. -/
inductive MAInstance where
  | sma (period : ℕ) (window : List ℚ)
  | ema (period : ℕ) (value : ℚ)
deriving DecidableEq, Repr

/-- Modelled from the spec (section 4.1): initialize a constructor against a
first observation, producing a running state whose initial output equals the
seed; constructing with period ≤ 1 fails. -/
def MA.init (m : MA) (v : ℚ) : Except Error MAInstance :=
  match m with
  | .SMA p => if p ≤ 1 then .error .WrongMethodParameters
      else .ok (.sma p (List.replicate p v))
  | .EMA p => if p ≤ 1 then .error .WrongMethodParameters
      else .ok (.ema p v)

/-- Modelled from the spec (section 4.1): one incremental step of a running
moving average: a simple average slides its trailing window and returns the
window mean; an exponential average blends the new observation with the
prior output using the smoothing weight `2 / (period + 1)`. -/
def MAInstance.next (s : MAInstance) (v : ℚ) : MAInstance × ℚ :=
  match s with
  | .sma p w =>
      let w2 := w.tail ++ [v]
      (.sma p w2, w2.sum / p)
  | .ema p prev =>
      let α : ℚ := 2 / (p + 1)
      let nv := α * v + (1 - α) * prev
      (.ema p nv, nv)

/-- The rational value of a raw textual parameter, when it is an optionally
signed integer literal.  Modelled from the spec (section 1): textual parsing
is an external collaborator, specified only at its interface (it may succeed
or fail); a minimal grammar is embedded. -/
def parseValue (s : String) : Option ℚ :=
  (s.toInt?).map (fun n => (n : ℚ))

/-- A moving-average constructor parsed from its textual form
`family-period`.  Modelled from the spec (section 1): parsing is an external
collaborator; a minimal grammar is embedded. -/
def parseMA (s : String) : Option MA :=
  match s.splitOn ("-") with
  | [f, p] =>
      match p.toNat? with
      | some n =>
          if f = ("sma") then some (.SMA n)
          else if f = ("ema") then some (.EMA n)
          else Option.none
      | Option.none => Option.none
  | _ => Option.none

/-- A source selector parsed from its textual name.  Modelled from the spec
(section 1): parsing is an external collaborator; a minimal grammar is
embedded. -/
def parseSource (s : String) : Option Source :=
  if s = ("open") then some .Open
  else if s = ("high") then some .High
  else if s = ("low") then some .Low
  else if s = ("close") then some .Close
  else if s = ("volume") then some .Volume
  else if s = ("tp") then some .TP
  else Option.none

/-- The `Envelopes` indicator configuration
(src/src/indicators/envelopes.rs, struct `Envelopes`). -/
structure Envelopes where
  ma : MA
  k : ℚ
  source : Source
  source2 : Source
deriving DecidableEq, Repr

/-- `Envelopes::validate`: `k > 0` and the moving-average period exceeds 1
(envelopes.rs lines 71-73). -/
def Envelopes.validate (cfg : Envelopes) : Bool :=
  decide (0 < cfg.k) && decide (1 < cfg.ma.maPeriod)

/-- The running instance of the envelope indicator
(envelopes.rs, struct `EnvelopesInstance`). -/
structure EnvelopesInstance where
  cfg : Envelopes
  ma : MAInstance
  k_high : ℚ
  k_low : ℚ
deriving DecidableEq, Repr

/-- `Envelopes::init` (envelopes.rs lines 55-69): fail with `WrongConfig`
when validation fails; otherwise seed the moving average from the first
candle's `source` field and store the bound factors `1 + k` and `1 - k`. -/
def Envelopes.init (cfg : Envelopes) (candle : Candle) :
    Except Error EnvelopesInstance :=
  if cfg.validate = false then .error .WrongConfig
  else
    match cfg.ma.init (candle.source cfg.source) with
    | .ok m => .ok { cfg := cfg, ma := m, k_high := 1 + cfg.k, k_low := 1 - cfg.k }
    | .error e => .error e

/-- `Envelopes::set` (envelopes.rs lines 75-100): assign a named field from
its textual value, failing with `ParameterParse` on a parse failure or an
unknown field name. -/
def Envelopes.set (cfg : Envelopes) (name : String) (value : String) :
    Except Error Envelopes :=
  if name = ("ma") then
    match parseMA value with
    | some v => .ok { cfg with ma := v }
    | Option.none => .error (.ParameterParse name value)
  else if name = ("k") then
    match parseValue value with
    | some v => .ok { cfg with k := v }
    | Option.none => .error (.ParameterParse name value)
  else if name = ("source") then
    match parseSource value with
    | some v => .ok { cfg with source := v }
    | Option.none => .error (.ParameterParse name value)
  else if name = ("source2") then
    match parseSource value with
    | some v => .ok { cfg with source2 := v }
    | Option.none => .error (.ParameterParse name value)
  else .error (.ParameterParse name value)

/-- `Envelopes::size` (envelopes.rs lines 102-104): 3 values, 1 signal. -/
def Envelopes.size (_cfg : Envelopes) : ℕ × ℕ :=
  (3, 1)

/-- `EnvelopesInstance::next` (envelopes.rs lines 135-153): advance the
moving average on the `source` value, compute the upper and lower bounds
`v * k_high` and `v * k_low`, read the `source2` value, and emit the signal
`(src2 < lower) - (src2 > upper)` converted to an `Action`.  Returns the
updated instance with the result `[upper, lower, src2]` / one signal. -/
def EnvelopesInstance.next (inst : EnvelopesInstance) (candle : Candle) :
    EnvelopesInstance × IndicatorResult :=
  let src := candle.source inst.cfg.source
  let step := inst.ma.next src
  let v := step.2
  let value1 := v * inst.k_high
  let value2 := v * inst.k_low
  let src2 := candle.source inst.cfg.source2
  let signal : ℤ :=
    (if src2 < value2 then 1 else 0) - (if src2 > value1 then 1 else 0)
  ({ inst with ma := step.1 },
   { values := [value1, value2, src2], signals := [Action.fromInt signal] })

/-- Feed a list of candles to an envelope instance in order, collecting the
per-step results (the caller-side replay loop of the spec, section 8). -/
def EnvelopesInstance.steps (inst : EnvelopesInstance) :
    List Candle → List IndicatorResult
  | [] => []
  | c :: cs =>
      let step := inst.next c
      step.2 :: step.1.steps cs

/-- Construct a fresh envelope instance from the first candle and replay the
remaining candles through it (spec, section 8, determinism). -/
def Envelopes.run (cfg : Envelopes) (first : Candle) (rest : List Candle) :
    Except Error (List IndicatorResult) :=
  (cfg.init first).map (fun i => i.steps rest)

/-- Modelled from the spec (section 4.4, volume-oscillator): the helper
`sign`, mapping a delta to `1`, `-1` or `0` by its sign; a zero delta
contributes zero. -/
def sign (v : ℚ) : ℚ :=
  if 0 < v then 1 else if v < 0 then -1 else 0

/-- The `KlingerVolumeOscillator` indicator configuration
(src/src/indicators/klinger_volume_oscillator.rs, struct
`KlingerVolumeOscillator`): a fast average `ma1`, a slow average `ma2` and a
signal-line average `signal`. -/
structure KlingerVolumeOscillator where
  ma1 : MA
  ma2 : MA
  signal : MA
deriving DecidableEq, Repr

/-- `KlingerVolumeOscillator::validate`
(klinger_volume_oscillator.rs lines 80-85): `ma1` similar to `ma2`,
`ma1` period > 1, `signal` period > 1, and `ma1` period strictly less than
`ma2` period. -/
def KlingerVolumeOscillator.validate (cfg : KlingerVolumeOscillator) : Bool :=
  cfg.ma1.isSimilarTo cfg.ma2
    && decide (1 < cfg.ma1.maPeriod)
    && decide (1 < cfg.signal.maPeriod)
    && decide (cfg.ma1.maPeriod < cfg.ma2.maPeriod)

/-- The running instance of the volume-oscillator indicator
(klinger_volume_oscillator.rs, struct `KlingerVolumeOscillatorInstance`). -/
structure KlingerVolumeOscillatorInstance where
  cfg : KlingerVolumeOscillator
  ma1 : MAInstance
  ma2 : MAInstance
  ma3 : MAInstance
  cross1 : CrossState
  cross2 : CrossState
  last_tp : ℚ
deriving DecidableEq, Repr

/-- `KlingerVolumeOscillator::init`
(klinger_volume_oscillator.rs lines 63-78): fail with `WrongConfig` when
validation fails; otherwise seed all three moving averages with the neutral
value `0`, the two crossing detectors with their default (uninitialized)
state, and remember the first candle's typical price. -/
def KlingerVolumeOscillator.init (cfg : KlingerVolumeOscillator)
    (candle : Candle) : Except Error KlingerVolumeOscillatorInstance :=
  if cfg.validate = false then .error .WrongConfig
  else
    match cfg.ma1.init 0, cfg.ma2.init 0, cfg.signal.init 0 with
    | .ok m1, .ok m2, .ok m3 =>
        .ok { cfg := cfg, ma1 := m1, ma2 := m2, ma3 := m3,
              cross1 := .uninit, cross2 := .uninit, last_tp := candle.tp }
    | .error e, _, _ => .error e
    | _, .error e, _ => .error e
    | _, _, .error e => .error e

/-- `KlingerVolumeOscillator::set`
(klinger_volume_oscillator.rs lines 87-108): assign a named field from its
textual value, failing with `ParameterParse` on a parse failure or an
unknown field name. -/
def KlingerVolumeOscillator.set (cfg : KlingerVolumeOscillator)
    (name : String) (value : String) : Except Error KlingerVolumeOscillator :=
  if name = ("ma1") then
    match parseMA value with
    | some v => .ok { cfg with ma1 := v }
    | Option.none => .error (.ParameterParse name value)
  else if name = ("ma2") then
    match parseMA value with
    | some v => .ok { cfg with ma2 := v }
    | Option.none => .error (.ParameterParse name value)
  else if name = ("signal") then
    match parseMA value with
    | some v => .ok { cfg with signal := v }
    | Option.none => .error (.ParameterParse name value)
  else .error (.ParameterParse name value)

/-- `KlingerVolumeOscillator::size`
(klinger_volume_oscillator.rs lines 110-112): 2 values, 2 signals. -/
def KlingerVolumeOscillator.size (_cfg : KlingerVolumeOscillator) : ℕ × ℕ :=
  (2, 2)

/-- The signed-volume contribution of one candle
(klinger_volume_oscillator.rs lines 148-159): the candle's volume multiplied
by the sign of the typical-price delta since the previous candle. -/
def KlingerVolumeOscillatorInstance.vol
    (inst : KlingerVolumeOscillatorInstance) (candle : Candle) : ℚ :=
  sign (candle.tp - inst.last_tp) * candle.volume

/-- `KlingerVolumeOscillatorInstance::next`
(klinger_volume_oscillator.rs lines 145-171): feed the signed volume to both
primary averages, subtract them into the oscillator `ko`, smooth `ko` into
the signal line, advance both crossing detectors (`ko` against `0`, `ko`
against the signal line), remember the typical price, and return
`[ko, signal-line]` with the two crossing signals. -/
def KlingerVolumeOscillatorInstance.next
    (inst : KlingerVolumeOscillatorInstance) (candle : Candle) :
    KlingerVolumeOscillatorInstance × IndicatorResult :=
  let tp := candle.tp
  let v := inst.vol candle
  let step1 := inst.ma1.next v
  let step2 := inst.ma2.next v
  let ko := step1.2 - step2.2
  let step3 := inst.ma3.next ko
  let c1 := inst.cross1.next ko 0
  let c2 := inst.cross2.next ko step3.2
  ({ inst with
      ma1 := step1.1
      ma2 := step2.1
      ma3 := step3.1
      cross1 := c1.1
      cross2 := c2.1
      last_tp := tp },
   { values := [ko, step3.2], signals := [c1.2, c2.2] })

/-- Feed a list of candles to a volume-oscillator instance in order,
collecting the per-step results (the caller-side replay loop of the spec,
section 8). -/
def KlingerVolumeOscillatorInstance.steps
    (inst : KlingerVolumeOscillatorInstance) :
    List Candle → List IndicatorResult
  | [] => []
  | c :: cs =>
      let step := inst.next c
      step.2 :: step.1.steps cs

/-- Construct a fresh volume-oscillator instance from the first candle and
replay the remaining candles through it (spec, section 8, determinism). -/
def KlingerVolumeOscillator.run (cfg : KlingerVolumeOscillator)
    (first : Candle) (rest : List Candle) :
    Except Error (List IndicatorResult) :=
  (cfg.init first).map (fun i => i.steps rest)

/-! Concrete inputs used by witnesses and counterexamples. -/

/-- A flat candle: all four price fields equal to `x`, volume `v`. -/
def candleAt (x v : ℚ) : Candle :=
  ⟨x, x, x, x, v⟩

/-- A small valid envelope configuration: SMA of period 2, `k = 1/10`. -/
def envCfg2 : Envelopes :=
  ⟨.SMA 2, 1/10, .Close, .Close⟩

/-- An invalid envelope configuration: `k = 0` fails validation. -/
def envCfgBad : Envelopes :=
  ⟨.SMA 2, 0, .Close, .Close⟩

/-- A valid envelope configuration with a wide band, `k = 1/2`. -/
def envCfgNeg : Envelopes :=
  ⟨.SMA 2, 1/2, .Close, .Close⟩

/-- The instance `envCfgNeg.init` builds from a flat candle at `-10`. -/
def envInstNeg : EnvelopesInstance :=
  ⟨envCfgNeg, .sma 2 [-10, -10], 3/2, 1/2⟩

/-- A small valid volume-oscillator configuration (EMA 2 / EMA 3 / EMA 2). -/
def kvoCfg3 : KlingerVolumeOscillator :=
  ⟨.EMA 2, .EMA 3, .EMA 2⟩

/-- An invalid volume-oscillator configuration: `ma1` and `ma2` are from
different families. -/
def kvoCfgBad : KlingerVolumeOscillator :=
  ⟨.SMA 2, .EMA 3, .EMA 2⟩

/-- The instance `kvoCfg3.init` builds from a flat candle at `10`. -/
def kvoInst3 : KlingerVolumeOscillatorInstance :=
  ⟨kvoCfg3, .ema 2 0, .ema 3 0, .ema 2 0, .uninit, .uninit, 10⟩

/-- A moving-average constructor with period above 1 always initializes
successfully (spec, section 4.1: only period ≤ 1 is an error). -/
lemma MA.init_isOk (m : MA) (v : ℚ) (h : 1 < m.maPeriod) :
    ∃ s, m.init v = .ok s := by
  cases m with
  | SMA p =>
      simp only [MA.maPeriod] at h
      refine ⟨.sma p (List.replicate p v), ?_⟩
      simp [MA.init, Nat.not_le.mpr h]
  | EMA p =>
      simp only [MA.maPeriod] at h
      refine ⟨.ema p v, ?_⟩
      simp [MA.init, Nat.not_le.mpr h]

/-- C1. Validation gate: for both indicators, `init` fails with
`WrongConfig` exactly when `validate` is false, and returns an instance
whenever `validate` is true (every rational-valued candle is well-formed in
this embedding). -/
theorem init_validation_gate :
    (∀ (cfg : Envelopes) (c : Candle),
        cfg.validate = false → cfg.init c = .error .WrongConfig)
    ∧ (∀ (cfg : Envelopes) (c : Candle),
        cfg.validate = true → ∃ i, cfg.init c = .ok i)
    ∧ (∀ (cfg : KlingerVolumeOscillator) (c : Candle),
        cfg.validate = false → cfg.init c = .error .WrongConfig)
    ∧ (∀ (cfg : KlingerVolumeOscillator) (c : Candle),
        cfg.validate = true → ∃ i, cfg.init c = .ok i) := by
  refine ⟨?_, ?_, ?_, ?_⟩
  · intro cfg c h
    simp [Envelopes.init, h]
  · intro cfg c h
    have hp : 1 < cfg.ma.maPeriod := by
      simp only [Envelopes.validate, Bool.and_eq_true, decide_eq_true_eq] at h
      exact h.2
    obtain ⟨s, hs⟩ := MA.init_isOk cfg.ma (c.source cfg.source) hp
    refine ⟨⟨cfg, s, 1 + cfg.k, 1 - cfg.k⟩, ?_⟩
    simp [Envelopes.init, h, hs]
  · intro cfg c h
    simp [KlingerVolumeOscillator.init, h]
  · intro cfg c h
    have hv := h
    simp only [KlingerVolumeOscillator.validate, Bool.and_eq_true,
      decide_eq_true_eq] at hv
    obtain ⟨⟨⟨_, hp1⟩, hp3⟩, hp12⟩ := hv
    have hp2 : 1 < cfg.ma2.maPeriod := by omega
    obtain ⟨s1, hs1⟩ := MA.init_isOk cfg.ma1 0 hp1
    obtain ⟨s2, hs2⟩ := MA.init_isOk cfg.ma2 0 hp2
    obtain ⟨s3, hs3⟩ := MA.init_isOk cfg.signal 0 hp3
    refine ⟨⟨cfg, s1, s2, s3, .uninit, .uninit, c.tp⟩, ?_⟩
    simp [KlingerVolumeOscillator.init, h, hs1, hs2, hs3]

/-- Witness for C1: the gate evaluated at concrete configurations — a
zero-`k` envelope and a mixed-family oscillator fail, the small valid
configurations succeed. -/
theorem init_validation_gate_witness :
    envCfgBad.init (candleAt 100 0) = .error .WrongConfig
    ∧ (∃ i, envCfg2.init (candleAt 100 0) = .ok i)
    ∧ kvoCfgBad.init (candleAt 10 5) = .error .WrongConfig
    ∧ (∃ i, kvoCfg3.init (candleAt 10 5) = .ok i) :=
  ⟨init_validation_gate.1 envCfgBad (candleAt 100 0)
      (by with_unfolding_all decide),
   init_validation_gate.2.1 envCfg2 (candleAt 100 0)
      (by with_unfolding_all decide),
   init_validation_gate.2.2.1 kvoCfgBad (candleAt 10 5)
      (by with_unfolding_all decide),
   init_validation_gate.2.2.2 kvoCfg3 (candleAt 10 5)
      (by with_unfolding_all decide)⟩

/-- C2. Shape invariant: every call to `next` returns exactly `size().0`
values and `size().1` signals — 3 and 1 for the envelope indicator, 2 and 2
for the volume oscillator. -/
theorem next_result_shape :
    (∀ (i : EnvelopesInstance) (c : Candle),
        i.cfg.size = (3, 1)
        ∧ (i.next c).2.values.length = i.cfg.size.1
        ∧ (i.next c).2.signals.length = i.cfg.size.2)
    ∧ (∀ (i : KlingerVolumeOscillatorInstance) (c : Candle),
        i.cfg.size = (2, 2)
        ∧ (i.next c).2.values.length = i.cfg.size.1
        ∧ (i.next c).2.signals.length = i.cfg.size.2) :=
  ⟨fun _ _ => ⟨rfl, rfl, rfl⟩, fun _ _ => ⟨rfl, rfl, rfl⟩⟩

/-- C5. Volume-oscillator validation is true only when `ma1` and `ma2` are
of the same family with the fast period strictly below the slow one (both
above 1); in particular a family mismatch always fails validation. -/
theorem kvo_validate_characterization :
    (∀ cfg : KlingerVolumeOscillator,
        cfg.validate = true →
          cfg.ma1.isSimilarTo cfg.ma2 = true
          ∧ 1 < cfg.ma1.maPeriod
          ∧ 1 < cfg.ma2.maPeriod
          ∧ cfg.ma1.maPeriod < cfg.ma2.maPeriod)
    ∧ (∀ cfg : KlingerVolumeOscillator,
        cfg.ma1.isSimilarTo cfg.ma2 = false → cfg.validate = false) := by
  constructor
  · intro cfg h
    simp only [KlingerVolumeOscillator.validate, Bool.and_eq_true,
      decide_eq_true_eq] at h
    obtain ⟨⟨⟨hsim, hp1⟩, _⟩, hp12⟩ := h
    exact ⟨hsim, hp1, by omega, hp12⟩
  · intro cfg h
    simp [KlingerVolumeOscillator.validate, h]

/-- Witness for C5: evaluated at the valid EMA 2/3 configuration and at the
mixed-family configuration. -/
theorem kvo_validate_characterization_witness :
    (kvoCfg3.ma1.isSimilarTo kvoCfg3.ma2 = true
      ∧ 1 < kvoCfg3.ma1.maPeriod
      ∧ 1 < kvoCfg3.ma2.maPeriod
      ∧ kvoCfg3.ma1.maPeriod < kvoCfg3.ma2.maPeriod)
    ∧ kvoCfgBad.validate = false :=
  ⟨kvo_validate_characterization.1 kvoCfg3 (by decide),
   kvo_validate_characterization.2 kvoCfgBad (by decide)⟩

/-- C9. Determinism: for equal configurations, equal first candles and
equal remaining candle sequences, two fresh replays produce identical
result sequences, for both indicators. -/
theorem run_deterministic :
    (∀ (cfg1 cfg2 : Envelopes) (f1 f2 : Candle) (r1 r2 : List Candle),
        cfg1 = cfg2 → f1 = f2 → r1 = r2 → cfg1.run f1 r1 = cfg2.run f2 r2)
    ∧ (∀ (cfg1 cfg2 : KlingerVolumeOscillator) (f1 f2 : Candle)
          (r1 r2 : List Candle),
        cfg1 = cfg2 → f1 = f2 → r1 = r2 → cfg1.run f1 r1 = cfg2.run f2 r2) := by
  constructor
  · intro cfg1 cfg2 f1 f2 r1 r2 h1 h2 h3
    rw [h1, h2, h3]
  · intro cfg1 cfg2 f1 f2 r1 r2 h1 h2 h3
    rw [h1, h2, h3]

/-- Witness for C9: both replay equalities at a concrete configuration and
candle sequence. -/
theorem run_deterministic_witness :
    envCfg2.run (candleAt 100 0) [candleAt 100 0, candleAt 80 0]
      = envCfg2.run (candleAt 100 0) [candleAt 100 0, candleAt 80 0]
    ∧ kvoCfg3.run (candleAt 10 5) [candleAt 4 7]
      = kvoCfg3.run (candleAt 10 5) [candleAt 4 7] :=
  ⟨run_deterministic.1 envCfg2 envCfg2 (candleAt 100 0) (candleAt 100 0)
      [candleAt 100 0, candleAt 80 0] [candleAt 100 0, candleAt 80 0]
      rfl rfl rfl,
   run_deterministic.2 kvoCfg3 kvoCfg3 (candleAt 10 5) (candleAt 10 5)
      [candleAt 4 7] [candleAt 4 7] rfl rfl rfl⟩

/-- C7. Envelope threshold scenario: with SMA(2), `k = 1/10`, both sources
`Close`, first candle close 100 and then closes 100 and 80, the third
candle's step has centerline 90, upper bound 99, lower bound 81, and a full
buy signal; the step on the second candle has bounds 110 and 90 and no
signal. -/
theorem envelope_threshold_scenario :
    envCfg2.run (candleAt 100 0) [candleAt 100 0, candleAt 80 0]
      = .ok [⟨[110, 90, 100], [.none]⟩, ⟨[99, 81, 80], [.buy]⟩]
    ∧ (envCfg2.init (candleAt 100 0)).map
        (fun i => ((i.next (candleAt 100 0)).1.ma.next
            ((candleAt 80 0).source envCfg2.source)).2)
      = .ok 90 := by
  with_unfolding_all decide

/-- C8. Unknown-field error: on either indicator, `set` with a field name
outside the declared parameter names fails with `ParameterParse` carrying
that name and the raw value, for every raw value. -/
theorem set_unknown_field :
    (∀ (cfg : Envelopes) (name value : String),
        name ≠ ("ma") → name ≠ ("k") → name ≠ ("source") →
        name ≠ ("source2") →
        cfg.set name value = .error (.ParameterParse name value))
    ∧ (∀ (cfg : KlingerVolumeOscillator) (name value : String),
        name ≠ ("ma1") → name ≠ ("ma2") → name ≠ ("signal") →
        cfg.set name value = .error (.ParameterParse name value)) := by
  constructor
  · intro cfg name value h1 h2 h3 h4
    simp [Envelopes.set, h1, h2, h3, h4]
  · intro cfg name value h1 h2 h3
    simp [KlingerVolumeOscillator.set, h1, h2, h3]

/-- Witness for C8: `set` with the field name `bogus` and raw value `1`
fails on both indicators. -/
theorem set_unknown_field_witness :
    envCfg2.set ("bogus") ("1")
      = .error (.ParameterParse ("bogus") ("1"))
    ∧ kvoCfg3.set ("bogus") ("1")
      = .error (.ParameterParse ("bogus") ("1")) :=
  ⟨set_unknown_field.1 envCfg2 ("bogus") ("1")
      (by decide) (by decide) (by decide) (by decide),
   set_unknown_field.2 kvoCfg3 ("bogus") ("1")
      (by decide) (by decide) (by decide)⟩

/-- C10. Neutral seeding: a successful `KlingerVolumeOscillator::init`
seeds all three moving averages with the neutral value `0`, both crossing
detectors with their default state, and stores the first candle's typical
price; consequently `init`, and every replay, depends on the first candle
only through its typical price — in particular never on its volume. -/
theorem kvo_init_neutral_seed :
    (∀ (cfg : KlingerVolumeOscillator) (c : Candle)
        (inst : KlingerVolumeOscillatorInstance),
        cfg.init c = .ok inst →
          cfg.ma1.init 0 = .ok inst.ma1
          ∧ cfg.ma2.init 0 = .ok inst.ma2
          ∧ cfg.signal.init 0 = .ok inst.ma3
          ∧ inst.cross1 = .uninit
          ∧ inst.cross2 = .uninit
          ∧ inst.last_tp = c.tp)
    ∧ (∀ (cfg : KlingerVolumeOscillator) (c1 c2 : Candle),
        c1.tp = c2.tp → cfg.init c1 = cfg.init c2)
    ∧ (∀ (cfg : KlingerVolumeOscillator) (c1 c2 : Candle)
        (rest : List Candle),
        c1.tp = c2.tp → cfg.run c1 rest = cfg.run c2 rest) := by
  refine ⟨?_, ?_, ?_⟩
  · intro cfg c inst h
    by_cases hv : cfg.validate = false
    · simp [KlingerVolumeOscillator.init, hv] at h
    · cases e1 : cfg.ma1.init 0 with
      | error e =>
          simp [KlingerVolumeOscillator.init, hv, e1] at h
      | ok m1 =>
          cases e2 : cfg.ma2.init 0 with
          | error e =>
              simp [KlingerVolumeOscillator.init, hv, e1, e2] at h
          | ok m2 =>
              cases e3 : cfg.signal.init 0 with
              | error e =>
                  simp [KlingerVolumeOscillator.init, hv, e1, e2, e3] at h
              | ok m3 =>
                  simp only [KlingerVolumeOscillator.init, e1, e2, e3] at h
                  rw [if_neg hv] at h
                  injection h with h2
                  subst h2
                  exact ⟨rfl, rfl, rfl, rfl, rfl, rfl⟩
  · intro cfg c1 c2 h
    simp only [KlingerVolumeOscillator.init, h]
  · intro cfg c1 c2 rest h
    have hinit : cfg.init c1 = cfg.init c2 := by
      simp only [KlingerVolumeOscillator.init, h]
    simp only [KlingerVolumeOscillator.run, hinit]

/-- Witness for C10: the EMA 2/3 configuration initialized from a flat
candle at 10 with volume 5 yields the concrete neutral-seeded instance, and
replaying after a first candle of equal typical price but different volume
gives identical results. -/
theorem kvo_init_neutral_seed_witness :
    (kvoCfg3.ma1.init 0 = .ok kvoInst3.ma1
      ∧ kvoCfg3.ma2.init 0 = .ok kvoInst3.ma2
      ∧ kvoCfg3.signal.init 0 = .ok kvoInst3.ma3
      ∧ kvoInst3.cross1 = .uninit
      ∧ kvoInst3.cross2 = .uninit
      ∧ kvoInst3.last_tp = (candleAt 10 5).tp)
    ∧ kvoCfg3.init (candleAt 10 5) = kvoCfg3.init (candleAt 10 999)
    ∧ kvoCfg3.run (candleAt 10 5) [candleAt 4 7]
        = kvoCfg3.run (candleAt 10 999) [candleAt 4 7] :=
  ⟨kvo_init_neutral_seed.1 kvoCfg3 (candleAt 10 5) kvoInst3
      (by with_unfolding_all decide),
   kvo_init_neutral_seed.2.1 kvoCfg3 (candleAt 10 5) (candleAt 10 999)
      (by with_unfolding_all decide),
   kvo_init_neutral_seed.2.2 kvoCfg3 (candleAt 10 5) (candleAt 10 999)
      [candleAt 4 7] (by with_unfolding_all decide)⟩

/-- The instance `envCfg2.init` builds from a flat candle at `100`. -/
def envInstPos : EnvelopesInstance :=
  ⟨envCfg2, .sma 2 [100, 100], 11/10, 9/10⟩

/-- The signal emitted by one envelope step is the integer difference of
the two boundary checks, converted to an `Action`
(envelopes.rs line 150). -/
lemma EnvelopesInstance.next_signals (i : EnvelopesInstance) (c : Candle) :
    (i.next c).2.signals
      = [Action.fromInt
          ((if c.source i.cfg.source2
                < (i.ma.next (c.source i.cfg.source)).2 * i.k_low
            then 1 else 0)
            - (if c.source i.cfg.source2
                  > (i.ma.next (c.source i.cfg.source)).2 * i.k_high
              then 1 else 0))] :=
  rfl

/-- Counterexample for C3: a validated configuration (`k = 1/2`) and a
reachable instance where the `source2` value (-10) is strictly below the
lower bound (-5), yet the emitted signal is no signal, not full buy —
because the value also breaches the upper bound (-15) and the two boolean
checks cancel. -/
theorem envelope_signal_policy_cex :
    envCfgNeg.validate = true
    ∧ envCfgNeg.init (candleAt (-10) 0) = .ok envInstNeg
    ∧ (candleAt (-10) 0).source envInstNeg.cfg.source2
        < (envInstNeg.ma.next
            ((candleAt (-10) 0).source envInstNeg.cfg.source)).2
          * envInstNeg.k_low
    ∧ (envInstNeg.next (candleAt (-10) 0)).2.signals = [Action.none] := by
  with_unfolding_all decide

/-- C3 (amended). Envelope threshold signal policy: the single emitted
signal is full buy when the `source2` value is strictly below the lower
bound but not strictly above the upper bound, full sell when it is strictly
above the upper bound but not strictly below the lower bound, and no signal
otherwise — including the simultaneous-breach case, where the two boolean
checks cancel to no signal. -/
theorem envelope_signal_policy :
    ∀ (i : EnvelopesInstance) (c : Candle),
      (c.source i.cfg.source2
          < (i.ma.next (c.source i.cfg.source)).2 * i.k_low →
        c.source i.cfg.source2
          ≤ (i.ma.next (c.source i.cfg.source)).2 * i.k_high →
        (i.next c).2.signals = [Action.buy])
      ∧ ((i.ma.next (c.source i.cfg.source)).2 * i.k_high
            < c.source i.cfg.source2 →
        (i.ma.next (c.source i.cfg.source)).2 * i.k_low
            ≤ c.source i.cfg.source2 →
        (i.next c).2.signals = [Action.sell])
      ∧ ((i.ma.next (c.source i.cfg.source)).2 * i.k_low
            ≤ c.source i.cfg.source2 →
        c.source i.cfg.source2
          ≤ (i.ma.next (c.source i.cfg.source)).2 * i.k_high →
        (i.next c).2.signals = [Action.none])
      ∧ (c.source i.cfg.source2
            < (i.ma.next (c.source i.cfg.source)).2 * i.k_low →
        (i.ma.next (c.source i.cfg.source)).2 * i.k_high
            < c.source i.cfg.source2 →
        (i.next c).2.signals = [Action.none]) := by
  intro i c
  refine ⟨?_, ?_, ?_, ?_⟩
  · intro h1 h2
    rw [EnvelopesInstance.next_signals, if_pos h1,
      if_neg (by exact not_lt.mpr h2)]
    decide
  · intro h1 h2
    rw [EnvelopesInstance.next_signals, if_neg (not_lt.mpr h2),
      if_pos (by exact h1)]
    decide
  · intro h1 h2
    rw [EnvelopesInstance.next_signals, if_neg (not_lt.mpr h1),
      if_neg (by exact not_lt.mpr h2)]
    decide
  · intro h1 h2
    rw [EnvelopesInstance.next_signals, if_pos h1, if_pos (by exact h2)]
    decide

/-- Witness for C3 (amended): the buy branch at the threshold scenario's
third candle (80 strictly below the lower bound 81 and below the upper
bound 99 gives full buy), and the no-signal branch at a candle inside the
band. -/
theorem envelope_signal_policy_witness :
    ((envInstPos.next (candleAt 80 0)).2.signals = [Action.buy])
    ∧ ((envInstPos.next (candleAt 100 0)).2.signals = [Action.none]) :=
  ⟨(envelope_signal_policy envInstPos (candleAt 80 0)).1
      (by with_unfolding_all decide) (by with_unfolding_all decide),
   (envelope_signal_policy envInstPos (candleAt 100 0)).2.2.1
      (by with_unfolding_all decide) (by with_unfolding_all decide)⟩

/-- Counterexample for C4: the validated invariant `k > 0` alone does not
make a simultaneous breach unreachable.  With `k = 1/2` and a negative
moving-average value (-10), the bounds cross (upper -15 below lower -5),
and the `source2` value -10 is simultaneously strictly below the lower
bound and strictly above the upper bound, on a reachable instance. -/
theorem envelope_simultaneous_breach_cex :
    0 < envCfgNeg.k
    ∧ envCfgNeg.validate = true
    ∧ envCfgNeg.init (candleAt (-10) 0) = .ok envInstNeg
    ∧ ((candleAt (-10) 0).source envInstNeg.cfg.source2
        < (envInstNeg.ma.next
            ((candleAt (-10) 0).source envInstNeg.cfg.source)).2
          * envInstNeg.k_low
      ∧ (envInstNeg.ma.next
            ((candleAt (-10) 0).source envInstNeg.cfg.source)).2
          * envInstNeg.k_high
        < (candleAt (-10) 0).source envInstNeg.cfg.source2) := by
  with_unfolding_all decide

/-- C4 (amended). Simultaneous-breach unreachability holds under `k > 0`
together with a nonnegative moving-average value: when the instance's bound
factors are as `init` sets them (`k_high = 1 + k`, `k_low = 1 - k`) and the
updated moving-average value is nonnegative, the `source2` value can never
be strictly below the lower bound and strictly above the upper bound at
once. -/
theorem envelope_no_simultaneous_breach :
    ∀ (i : EnvelopesInstance) (c : Candle),
      0 < i.cfg.k →
      i.k_high = 1 + i.cfg.k →
      i.k_low = 1 - i.cfg.k →
      0 ≤ (i.ma.next (c.source i.cfg.source)).2 →
      ¬(c.source i.cfg.source2
          < (i.ma.next (c.source i.cfg.source)).2 * i.k_low
        ∧ (i.ma.next (c.source i.cfg.source)).2 * i.k_high
          < c.source i.cfg.source2) := by
  rintro i c hk hh hl hv ⟨h1, h2⟩
  rw [hl] at h1
  rw [hh] at h2
  nlinarith [mul_nonneg hv hk.le]

/-- Witness for C4 (amended): at the positive instance built from candles
at 100 (moving-average value 100, bounds 110 and 90), no candle value — 95
here — can breach both bounds. -/
theorem envelope_no_simultaneous_breach_witness :
    ¬((candleAt 95 0).source envInstPos.cfg.source2
        < (envInstPos.ma.next
            ((candleAt 95 0).source envInstPos.cfg.source)).2
          * envInstPos.k_low
      ∧ (envInstPos.ma.next
            ((candleAt 95 0).source envInstPos.cfg.source)).2
          * envInstPos.k_high
        < (candleAt 95 0).source envInstPos.cfg.source2) :=
  envelope_no_simultaneous_breach envInstPos (candleAt 95 0)
    (by with_unfolding_all decide) (by with_unfolding_all decide)
    (by with_unfolding_all decide) (by with_unfolding_all decide)

/-- Counterexample for C6: with zero volume, a strictly decreasing typical
price contributes exactly zero — not a strictly negative value — to the
primary averages. -/
theorem kvo_signed_volume_cex :
    kvoCfg3.init (candleAt 10 5) = .ok kvoInst3
    ∧ (candleAt 4 0).tp < kvoInst3.last_tp
    ∧ kvoInst3.vol (candleAt 4 0) = 0
    ∧ ¬(kvoInst3.vol (candleAt 4 0) < 0) := by
  with_unfolding_all decide

/-- C6 (amended). Signed-volume contribution: `next` feeds both primary
moving averages the candle's volume signed by the typical-price change —
strictly positive when the typical price increased and the volume is
strictly positive, strictly negative when it decreased and the volume is
strictly positive, and exactly zero whenever the typical-price delta is
zero, regardless of volume. -/
theorem kvo_signed_volume :
    ∀ (i : KlingerVolumeOscillatorInstance) (c : Candle),
      ((i.next c).1.ma1 = (i.ma1.next (i.vol c)).1
        ∧ (i.next c).1.ma2 = (i.ma2.next (i.vol c)).1)
      ∧ (i.last_tp < c.tp → 0 < c.volume → 0 < i.vol c)
      ∧ (c.tp < i.last_tp → 0 < c.volume → i.vol c < 0)
      ∧ (c.tp - i.last_tp = 0 → i.vol c = 0) := by
  intro i c
  refine ⟨⟨rfl, rfl⟩, ?_, ?_, ?_⟩
  · intro h hv
    have hd : 0 < c.tp - i.last_tp := by linarith
    simp only [KlingerVolumeOscillatorInstance.vol, sign, if_pos hd, one_mul]
    exact hv
  · intro h hv
    have hd1 : ¬0 < c.tp - i.last_tp := by linarith
    have hd2 : c.tp - i.last_tp < 0 := by linarith
    simp only [KlingerVolumeOscillatorInstance.vol, sign, if_neg hd1,
      if_pos hd2]
    nlinarith
  · intro h
    simp [KlingerVolumeOscillatorInstance.vol, sign, h]

/-- Witness for C6 (amended): from the neutral-seeded instance remembering
typical price 10, an increase to 20 with volume 3 contributes positively, a
decrease to 4 with volume 3 negatively, and an unchanged typical price
contributes zero with volume 7. -/
theorem kvo_signed_volume_witness :
    0 < kvoInst3.vol (candleAt 20 3)
    ∧ kvoInst3.vol (candleAt 4 3) < 0
    ∧ kvoInst3.vol (candleAt 10 7) = 0 :=
  ⟨(kvo_signed_volume kvoInst3 (candleAt 20 3)).2.1
      (by with_unfolding_all decide) (by with_unfolding_all decide),
   (kvo_signed_volume kvoInst3 (candleAt 4 3)).2.2.1
      (by with_unfolding_all decide) (by with_unfolding_all decide),
   (kvo_signed_volume kvoInst3 (candleAt 10 7)).2.2.2
      (by with_unfolding_all decide)⟩

end Yata
